import Mathlib

/-!
Verification of the layman overlay base class (`layman/overlays/overlay.py`)
and message sink (`layman/output.py`) against their natural-language
specification.  The Python code is shallowly embedded: pure string
manipulation becomes Lean functions on `String`/`List Char`, the filesystem
becomes an explicit list of existing paths, exceptions become `Except`, and
object mutation becomes explicit state passing.
-/

set_option maxRecDepth 4096

/-- Python `str` whitespace characters, as used by `str.strip()`. -/
def pySpace (c : Char) : Bool :=
  c = ' ' || c = '\t' || c = '\n' || c = '\r' || c = '\x0b' || c = '\x0c'

/-- Python `s.strip()`: remove leading and trailing whitespace. -/
def pyStrip (s : String) : String :=
  String.mk (((s.data.dropWhile pySpace).reverse.dropWhile pySpace).reverse)

/-- Numeric value of a list of decimal digit characters. -/
def digitsVal (l : List Char) : Nat :=
  l.foldl (fun a c => a * 10 + (c.toNat - 48)) 0

/-- Is every character a decimal digit? -/
def allDigits (l : List Char) : Bool :=
  l.all (fun c => '0' ≤ c && c ≤ '9')

/-- Python 2 `int(s)` on a string: optional surrounding whitespace, optional
sign, then at least one decimal digit; `none` models the `ValueError`. -/
def pyInt (s : String) : Option Int :=
  match (pyStrip s).data with
  | [] => none
  | '-' :: rest =>
      if rest ≠ [] && allDigits rest then some (-(digitsVal rest : Int)) else none
  | '+' :: rest =>
      if rest ≠ [] && allDigits rest then some ((digitsVal rest : Int)) else none
  | l =>
      if allDigits l then some ((digitsVal l : Int)) else none

/-- The parsed-descriptor dictionary shape consumed by `Overlay.__init__`
(the output of `node_to_dict`): element entries such as `data['<name>1']['@']`
and attribute entries such as `data['&name']`, each `none` when the key is
absent.  `ownerEmailElem` is `some` exactly when `'<owner>1'` is present and
holds an `'<email>1'` child; `ownerNameElem` is the owner's optional
`'<name>1'` child. -/
structure OverlayData where
  nameElem : Option String
  nameAttr : Option String
  sourceElem : Option String
  srcAttr : Option String
  ownerEmailElem : Option String
  ownerNameElem : Option String
  contactAttr : Option String
  descriptionElem : Option String
  statusAttr : Option String
  priorityAttr : Option String
  homepageElem : Option String
  linkElem : Option String
deriving DecidableEq, Repr

/-- The exceptions `Overlay.__init__` can raise, keyed by the missing field
(the Python code raises `Exception` with a corresponding message). -/
inductive InitErr where
  | missingName
  | missingSource (name : String)
  | missingOwnerEmail (name : String)
  | missingDescription (name : String)
  | invalidPriority (name : String) (value : String)
deriving DecidableEq, Repr

/-- Warnings emitted through `OUT.warn` during `Overlay.__init__`. -/
inductive WarnMsg where
  | missingOwnerEmail (name : String)
  | missingDescription (name : String)
deriving DecidableEq, Repr

/-- The state of a constructed `Overlay` object: the retained descriptor
dictionary `data` plus the derived fields set by `__init__`.  `otype` embeds
the class attribute `type` (always `"None"` for this base class). -/
structure Overlay where
  data : OverlayData
  name : String
  src : String
  owner_email : String
  owner_name : Option String
  description : String
  status : String
  priority : Int
  otype : String
deriving DecidableEq, Repr

/-- Embedding of `Overlay.__init__(xml, ignore, quiet)` operating on the parsed dictionary:
returns the constructed object and the warnings emitted, or the exception
raised.  Mirrors the source order: name, source, owner, description, status,
priority; element text is `.strip()`ped, attribute text is not; missing
owner email or description raises when `ignore == 0`, warns when
`ignore == 1`, and is silently defaulted to `""` otherwise. -/
def overlayInit (d : OverlayData) (ignore : Nat) :
    Except InitErr (Overlay × List WarnMsg) := do
  let name ←
    match d.nameElem, d.nameAttr with
    | some t, _ => Except.ok (pyStrip t)
    | none, some a => Except.ok a
    | none, none => Except.error InitErr.missingName
  let src ←
    match d.sourceElem, d.srcAttr with
    | some t, _ => Except.ok (pyStrip t)
    | none, some a => Except.ok a
    | none, none => Except.error (InitErr.missingSource name)
  let (owner_email, owner_name, w1) ←
    match d.ownerEmailElem with
    | some e => Except.ok (pyStrip e, d.ownerNameElem.map pyStrip,
        ([] : List WarnMsg))
    | none =>
      match d.contactAttr with
      | some c => Except.ok (c, none, [])
      | none =>
        if ignore = 0 then Except.error (InitErr.missingOwnerEmail name)
        else Except.ok ("", none,
          if ignore = 1 then [WarnMsg.missingOwnerEmail name] else [])
  let (description, w2) ←
    match d.descriptionElem with
    | some t => Except.ok (pyStrip t, ([] : List WarnMsg))
    | none =>
      if ignore = 0 then Except.error (InitErr.missingDescription name)
      else Except.ok ("",
        if ignore = 1 then [WarnMsg.missingDescription name] else [])
  let status := match d.statusAttr with
    | some s => s
    | none => ""
  let priority ←
    match d.priorityAttr with
    | some p =>
      match pyInt p with
      | some n => Except.ok n
      | none => Except.error (InitErr.invalidPriority name p)
    | none => Except.ok (50 : Int)
  Except.ok ({ data := d, name := name, src := src, owner_email := owner_email,
               owner_name := owner_name, description := description,
               status := status, priority := priority, otype := "None" },
             w1 ++ w2)

/-- Embedding of `Overlay.set_priority(priority)` called with a string value: the first
statement stores `str(priority)` into `self.data['&priority']`, then
`int(priority)` either updates `self.priority` or raises `ValueError`.  The
result is the object state after the call (even when it raised) together
with whether a `ValueError` propagated. -/
def Overlay.set_priority (o : Overlay) (p : String) : Overlay × Bool :=
  let o1 := { o with data := { o.data with priorityAttr := some p } }
  match pyInt p with
  | some n => ({ o1 with priority := n }, false)
  | none => (o1, true)

/-- Embedding of `Overlay.is_official()`. -/
def Overlay.is_official (o : Overlay) : Bool :=
  o.status = "official"

/-- Modelled from the spec: `layman.utils.path` (not under `src/`) joins the
storage root and the overlay name into the target path `storage_root/name`. -/
def joinPath (base name : String) : String :=
  base ++ "/" ++ name

/-- The filesystem, abstracted as the list of existing paths
(`os.path.exists p` is membership). -/
abbrev FS := List String

/-- Embedding of `os.path.exists`. -/
def fsHas (fs : FS) (p : String) : Bool :=
  fs.contains p

/-- Does `pre` lead `s` (Python `s.startswith(pre)`)? -/
def leadsWith (pre s : String) : Bool :=
  decide (s.data.take pre.data.length = pre.data)

/-- Is path `p` the directory `mdir` or strictly inside it? -/
def underPath (mdir p : String) : Bool :=
  p = mdir || leadsWith (mdir ++ "/") p

/-- Filesystem/process effects performed by an overlay operation. -/
inductive FsEvent where
  | mkdirs (p : String)
  | runCmd (c : String)
deriving DecidableEq, Repr

/-- The exceptions raised by `Overlay.add` / `Overlay.delete`. -/
inductive OvError where
  | alreadyExists (p : String)
  | notInstalled (p : String)
deriving DecidableEq, Repr

/-- Outcome of an overlay filesystem operation: the filesystem after the
call (also when it raised), the ordered effects performed, and the raised
exception, if any. -/
structure OpResult where
  fs : FS
  events : List FsEvent
  err : Option OvError
deriving DecidableEq, Repr

/-- Embedding of `Overlay.add(base)`: raises `AlreadyExists` (before touching anything)
when `base/name` exists, else `os.makedirs` creates it.  This base class
issues no transport command; derived classes run theirs only after this
method returns. -/
def Overlay.add (o : Overlay) (base : String) (fs : FS) : OpResult :=
  let mdir := joinPath base o.name
  if fsHas fs mdir then
    { fs := fs, events := [], err := some (OvError.alreadyExists mdir) }
  else
    { fs := mdir :: fs, events := [FsEvent.mkdirs mdir], err := none }

/-- Embedding of `Overlay.sync(base)`: the base class body is `pass` — no existence check,
no effect, unconditional success. -/
def Overlay.sync (_o : Overlay) (_base : String) (fs : FS) : OpResult :=
  { fs := fs, events := [], err := none }

/-- Embedding of `Overlay.delete(base)`: raises `NotInstalled` when `base/name` does not
exist, else `shutil.rmtree` removes the directory and everything inside
it. -/
def Overlay.delete (o : Overlay) (base : String) (fs : FS) : OpResult :=
  let mdir := joinPath base o.name
  if !(fsHas fs mdir) then
    { fs := fs, events := [], err := some (OvError.notInstalled mdir) }
  else
    { fs := fs.filter (fun p => !(underPath mdir p)), events := [],
      err := none }

/-- How `Overlay.cmd` hands the command line to the operating system:
`viaShell` is whether a shell interprets `line`, and `captured` is whether
the output streams are captured rather than inherited. -/
structure ExecCall where
  viaShell : Bool
  line : String
  captured : Bool
deriving DecidableEq, Repr

/-- Embedding of `Overlay.cmd(command)`: in non-quiet mode `os.system(command)` (shell),
in quiet mode `subprocess.Popen([command], shell=True, ...)` (also a shell,
with both streams captured).  The encoding step does not change which
program interprets the string.  Both branches hand the single concatenated
command string to a shell. -/
def Overlay.cmd (quiet : Bool) (command : String) : ExecCall :=
  if !quiet then { viaShell := true, line := command, captured := false }
  else { viaShell := true, line := command, captured := true }

/-- Helper for `listReplace`: while the counter is positive, the characters
belong to an occurrence already replaced and are skipped; at zero, test for
the next occurrence of `pat`. -/
def replAux (pat rep : List Char) : List Char → Nat → List Char
  | [], _ => []
  | _ :: rest, Nat.succ k => replAux pat rep rest k
  | x :: rest, 0 =>
    if pat ≠ [] && decide ((x :: rest).take pat.length = pat)
    then rep ++ replAux pat rep rest (pat.length - 1)
    else x :: replAux pat rep rest 0

/-- Python `s.replace(pat, rep)` on character lists: replace every
non-overlapping occurrence, scanning left to right and resuming after each
replacement.  (Python's empty-pattern edge case never arises here; an empty
pattern is left alone.) -/
def listReplace (pat rep l : List Char) : List Char :=
  replAux pat rep l 0

/-- Python `s.replace(pat, rep)` on strings. -/
def pyReplace (s pat rep : String) : String :=
  String.mk (listReplace pat.data rep.data s.data)

/-- Embedding of the inner `pad` helper of `Overlay.short_list`: pad with spaces up to `length`, or
truncate to `length - 3` and append `'...'`. -/
def pad (s : String) (n : Nat) : String :=
  if s.length ≤ n then s ++ String.mk (List.replicate (n - s.length) ' ')
  else String.mk (s.data.take (n - 3)) ++ "..."

/-- Embedding of `Overlay.short_list(width)` for an explicit nonzero width: name padded to
25, `' [' + type padded to 10 + ']'`, then the source — abbreviated via
`replace("overlays.gentoo.org", "o.g.o")` only when longer than
`width - 43` — wrapped in `' (' ... ')'` and padded to `width - 43`. -/
def Overlay.short_list (o : Overlay) (width : Nat) : String :=
  let name := pad o.name 25
  let mtype := " [" ++ pad o.otype 10 ++ "]"
  let srclen := width - 43
  let source := if decide (o.src.length > srclen)
    then pyReplace o.src "overlays.gentoo.org" "o.g.o" else o.src
  name ++ mtype ++ (" (" ++ pad source srclen ++ ")")

/-- Helper for `collapseSpaces`: the flag records whether the previous
character was a space (whose run has already emitted its single space). -/
def collapseAux : List Char → Bool → List Char
  | [], _ => []
  | c :: rest, inRun =>
    if c = ' ' then
      if inRun then collapseAux rest true
      else ' ' :: collapseAux rest true
    else c :: collapseAux rest false

/-- Embedding of `re.compile(' +').sub(' ', s)` on the characters: collapse every run of
spaces to a single space. -/
def collapseSpaces (l : List Char) : List Char :=
  collapseAux l false

/-- Embedding of `re.compile('\n ').sub('\n', s)`: drop the space of each (non-overlapping,
left-to-right) newline-space pair. -/
def dropSpaceAfterNL : List Char → List Char
  | [] => []
  | '\n' :: ' ' :: rest => '\n' :: dropSpaceAfterNL rest
  | c :: rest => c :: dropSpaceAfterNL rest

/-- The whitespace normalization `__str__` applies to the description and
link text: collapse space runs, then turn newline-space into newline. -/
def normTxt (s : String) : String :=
  String.mk (dropSpaceAfterNL (collapseSpaces s.data))

/-- Python `s.split('\n')` on the character list. -/
def splitNL : List Char → List (List Char)
  | [] => [[]]
  | x :: rest =>
    let r := splitNL rest
    if x = '\n' then [] :: r
    else
      match r with
      | [] => [[x]]
      | h :: t => (x :: h) :: t

/-- Python `s.split('\n')` as strings. -/
def pyLines (s : String) : List String :=
  (splitNL s.data).map String.mk

/-- Python `sep.join(parts)`. -/
def pyJoin (sep : String) : List String → String
  | [] => ""
  | [a] => a
  | a :: rest => a ++ sep ++ pyJoin sep rest

/-- The source's `'\n  '.join(('\n' + text).split('\n'))` idiom: indent every
line of `text` by two spaces, each preceded by a newline. -/
def joinIndent (text : String) : String :=
  pyJoin "\n  " (pyLines ("\n" ++ text))

/-- The optional `Link:` block of `__str__`, for the first of
`'<homepage>1'`/`'<link>1'` present in the data. -/
def linkBlock (l : String) : String :=
  "\nLink:\n" ++ joinIndent (normTxt (pyStrip l)) ++ "\n"

/-- The title of `__str__`: the name underlined by one `~` per character. -/
def titleLine (o : Overlay) : String :=
  o.name ++ "\n" ++ String.mk (List.replicate o.name.length '~')

/-- The `Source` line of `__str__`. -/
def sourceLine (o : Overlay) : String :=
  "\nSource  : " ++ o.src

/-- The `Contact` line of `__str__`: `name <email>` when an owner name is
present, the bare email otherwise. -/
def contactLine (o : Overlay) : String :=
  match o.owner_name with
  | some n => "\nContact : " ++ n ++ " <" ++ o.owner_email ++ ">"
  | none => "\nContact : " ++ o.owner_email

/-- The `Type ; Priority` line of `__str__`. -/
def typeLine (o : Overlay) : String :=
  "\nType    : " ++ o.otype ++ "; Priority: " ++ toString o.priority ++ "\n"

/-- The `Description:` section of `__str__`: the normalized description,
every line indented by two spaces. -/
def descSection (o : Overlay) : String :=
  "\nDescription:" ++ joinIndent (normTxt o.description) ++ "\n"

/-- The optional link section of `__str__`, for the first of
`'<homepage>1'`/`'<link>1'` present in the data. -/
def linkSection (o : Overlay) : String :=
  match o.data.homepageElem, o.data.linkElem with
  | some l, _ => linkBlock l
  | none, some l => linkBlock l
  | none, none => ""

/-- Embedding of `Overlay.__str__()` — the full detail rendering, a pure function of the
record: title underlined by `~` characters, `Source`, `Contact`,
`Type ; Priority`, the normalized indented description, then the optional
link block. -/
def Overlay.str (o : Overlay) : String :=
  titleLine o ++ sourceLine o ++ contactLine o ++ typeLine o ++
    descSection o ++ linkSection o

/-- Modelled from the spec: the numeric message levels of
`layman.constants` (not under `src/`); `OFF` disables a channel.  The
claims proved below do not depend on the particular values. -/
def OFF : Nat := 0

/-- Modelled from the spec: default informational verbosity level from
`layman.constants` (not under `src/`). -/
def INFO_LEVEL : Nat := 4

/-- Modelled from the spec: default warning verbosity level from
`layman.constants` (not under `src/`). -/
def WARN_LEVEL : Nat := 4

/-- Identifier of the process stdout stream (`sys.stdout`). -/
def sysStdout : Nat := 0

/-- Identifier of the process stderr stream (`sys.stderr`). -/
def sysStderr : Nat := 1

/-- The mutable state of a `MessageBase`/`Message` object: the two output
stream references, the verbosity levels, the colorization setting
(`color_func` is `_color` when `colorize` is true, `_no_color` otherwise),
and the `has_error` flag. -/
structure MessageState where
  std_out : Nat
  error_out : Nat
  info_lev : Nat
  warn_lev : Nat
  colorize : Bool
  debug_lev : Nat
  has_error : Bool
deriving DecidableEq, Repr

/-- Embedding of `MessageBase.__init__(out, err, info_level, warn_level, col)`. -/
def messageBaseInit (out err info_level warn_level : Nat) (col : Bool) :
    MessageState :=
  { std_out := out, error_out := err, info_lev := info_level,
    warn_lev := warn_level, colorize := col, debug_lev := OFF,
    has_error := false }

/-- Embedding of `Message.__init__(out, err, info_level, warn_level, col)`: the body is
the single call `MessageBase.__init__(self)`, which forwards none of the
five arguments. -/
def messageInit (_out _err _info_level _warn_level : Nat) (_col : Bool) :
    MessageState :=
  messageBaseInit sysStdout sysStderr INFO_LEVEL WARN_LEVEL true

/-- The state-relevant operations of `Message`/`MessageBase` (printing
arguments omitted; `statusOp` covers `status` for any status value). -/
inductive MOp where
  | debug
  | notice
  | info
  | statusOp
  | warn
  | errorOp
  | dieOp
  | set_colorize (b : Bool)
  | set_info_level (n : Nat)
  | set_warn_level (n : Nat)
  | set_debug_level (n : Nat)
deriving DecidableEq, Repr

/-- The effect of each `Message`/`MessageBase` method on the object state:
`error` ends with `self.has_error = True`; `die` calls `error` (at least
twice) before `sys.exit(1)`; the printing methods leave the state unchanged;
the setters update their field. -/
def mstep (op : MOp) (s : MessageState) : MessageState :=
  match op with
  | MOp.debug => s
  | MOp.notice => s
  | MOp.info => s
  | MOp.statusOp => s
  | MOp.warn => s
  | MOp.errorOp => { s with has_error := true }
  | MOp.dieOp => { s with has_error := true }
  | MOp.set_colorize b => { s with colorize := b }
  | MOp.set_info_level n => { s with info_lev := n }
  | MOp.set_warn_level n => { s with warn_lev := n }
  | MOp.set_debug_level n => { s with debug_lev := n }

/-- The first overlay of the source's doctest fixture
`tests/testfiles/global-overlays.xml`, in parsed-dictionary form. -/
def wrobelData : OverlayData :=
  { nameElem := some "wrobel", nameAttr := none,
    sourceElem := some "https://overlays.gentoo.org/svn/dev/wrobel",
    srcAttr := none,
    ownerEmailElem := some "nobody@gentoo.org", ownerNameElem := none,
    contactAttr := none,
    descriptionElem := some "Test", statusAttr := some "official",
    priorityAttr := some "10", homepageElem := none, linkElem := none }

/-- The `Overlay` object constructed from `wrobelData` (see `wrobel_init`). -/
def wrobel : Overlay :=
  { data := wrobelData, name := "wrobel",
    src := "https://overlays.gentoo.org/svn/dev/wrobel",
    owner_email := "nobody@gentoo.org", owner_name := none,
    description := "Test", status := "official", priority := 10,
    otype := "None" }

/-- Sanity link between the fixture record and the constructor. -/
theorem wrobel_init : overlayInit wrobelData 0 = Except.ok (wrobel, []) := rfl

/-- C3: refuted by the code — every execution path of `Overlay.cmd` hands the
single concatenated command string to a shell (`os.system` in normal mode,
`subprocess.Popen([command], shell=True, ...)` in quiet mode); there is no
argument-vector path and no per-call shell opt-in, so overlay-supplied
values interpolated into the command string are always shell-interpreted. -/
theorem cmd_always_shell (quiet : Bool) (command : String) :
    (Overlay.cmd quiet command).viaShell = true ∧
    (Overlay.cmd quiet command).line = command := by
  cases quiet <;> exact ⟨rfl, rfl⟩

/-- C9: `Message.__init__` invokes `MessageBase.__init__(self)` without
forwarding any of its five parameters, so the constructed state always
equals the default-constructed state (default streams, default verbosity
levels, colorization on), whatever arguments were passed. -/
theorem messageInit_ignores_args
    (out err info_level warn_level : Nat) (col : Bool) :
    messageInit out err info_level warn_level col =
      messageInit sysStdout sysStderr INFO_LEVEL WARN_LEVEL true ∧
    messageInit out err info_level warn_level col =
      messageBaseInit sysStdout sysStderr INFO_LEVEL WARN_LEVEL true := by
  exact ⟨rfl, rfl⟩

/-- C10: the `has_error` flag is `False` at construction, and each method's
effect on it is exactly `has_error ∨ (the method is error or die)`: `error`
(and hence `die`, which calls it) sets the flag, no method ever clears it,
so the flag is monotonic. -/
theorem has_error_monotonic :
    (∀ (out err info_level warn_level : Nat) (col : Bool),
      (messageInit out err info_level warn_level col).has_error = false) ∧
    (∀ (op : MOp) (s : MessageState),
      (mstep op s).has_error =
        (s.has_error ||
          match op with
          | MOp.errorOp => true
          | MOp.dieOp => true
          | _ => false)) := by
  constructor
  · intro out err il wl col
    rfl
  · intro op s
    cases op <;> simp [mstep]

/-- C1: `add` raises `AlreadyExists` and leaves the filesystem untouched when
`storage_root/name` exists; otherwise it creates exactly that directory, and
its effect list contains no transport command (so the directory creation
precedes any transport command a derived class would run afterwards). -/
theorem add_already_exists_or_creates (o : Overlay) (base : String) (fs : FS)
    (mdir : String) (hm : mdir = joinPath base o.name) :
    (fsHas fs mdir = true →
      o.add base fs =
        { fs := fs, events := [], err := some (OvError.alreadyExists mdir) }) ∧
    (fsHas fs mdir = false →
      o.add base fs =
        { fs := mdir :: fs, events := [FsEvent.mkdirs mdir], err := none } ∧
      ∀ c, FsEvent.runCmd c ∉ (o.add base fs).events) := by
  subst hm
  constructor
  · intro h
    simp [Overlay.add, h]
  · intro h
    refine ⟨by simp [Overlay.add, h], ?_⟩
    intro c
    simp [Overlay.add, h]

/-- C1 witness: instantiated at the fixture overlay for both branches. -/
theorem add_already_exists_or_creates_witness :
    wrobel.add "/var/lib/layman" ["/var/lib/layman/wrobel"] =
      { fs := ["/var/lib/layman/wrobel"], events := [],
        err := some (OvError.alreadyExists "/var/lib/layman/wrobel") } ∧
    wrobel.add "/var/lib/layman" [] =
      { fs := ["/var/lib/layman/wrobel"],
        events := [FsEvent.mkdirs "/var/lib/layman/wrobel"], err := none } :=
  ⟨(add_already_exists_or_creates wrobel "/var/lib/layman"
      ["/var/lib/layman/wrobel"] "/var/lib/layman/wrobel" rfl).1 (by decide),
   ((add_already_exists_or_creates wrobel "/var/lib/layman" []
      "/var/lib/layman/wrobel" rfl).2 (by decide)).1⟩

/-- C2 counterexample: with the target directory `/var/lib/layman/wrobel`
absent (empty filesystem), `sync` does not raise `NotInstalled` — the base
class `sync` body is `pass`, so it succeeds without any check. -/
theorem sync_absent_no_error_cex :
    fsHas [] (joinPath "/var/lib/layman" wrobel.name) = false ∧
    (wrobel.sync "/var/lib/layman" []).err = none := by
  exact ⟨by decide, rfl⟩

/-- C2 amended: `delete` raises `NotInstalled` (leaving the filesystem
untouched) when `storage_root/name` is absent, and recursively removes the
directory and everything under it when present; `sync`, however, performs no
existence check at all — it succeeds unconditionally without touching the
filesystem. -/
theorem delete_not_installed_sync_noop (o : Overlay) (base : String)
    (fs : FS) (mdir : String) (hm : mdir = joinPath base o.name) :
    (fsHas fs mdir = false →
      o.delete base fs =
        { fs := fs, events := [], err := some (OvError.notInstalled mdir) }) ∧
    (fsHas fs mdir = true →
      (o.delete base fs).err = none ∧
      (o.delete base fs).fs = fs.filter (fun p => !(underPath mdir p)) ∧
      ∀ p ∈ (o.delete base fs).fs, underPath mdir p = false) ∧
    o.sync base fs = { fs := fs, events := [], err := none } := by
  subst hm
  refine ⟨fun h => by simp [Overlay.delete, h], fun h => ?_, rfl⟩
  refine ⟨by simp [Overlay.delete, h], by simp [Overlay.delete, h], ?_⟩
  intro p hp
  simp only [Overlay.delete, h, Bool.not_true, Bool.false_eq_true,
    if_false, List.mem_filter] at hp
  simpa using hp.2

/-- C2 witness: the fixture overlay, with the directory absent for the
`NotInstalled` branch and present (with contents) for the removal branch. -/
theorem delete_not_installed_sync_noop_witness :
    wrobel.delete "/var/lib/layman" [] =
      { fs := [], events := [],
        err := some (OvError.notInstalled "/var/lib/layman/wrobel") } ∧
    (wrobel.delete "/var/lib/layman"
        ["/var/lib/layman/wrobel", "/var/lib/layman/wrobel/profiles",
         "/var/lib/layman/other"]).fs = ["/var/lib/layman/other"] :=
  ⟨(delete_not_installed_sync_noop wrobel "/var/lib/layman" []
      "/var/lib/layman/wrobel" rfl).1 (by decide),
   by
    have h := ((delete_not_installed_sync_noop wrobel "/var/lib/layman"
      ["/var/lib/layman/wrobel", "/var/lib/layman/wrobel/profiles",
       "/var/lib/layman/other"] "/var/lib/layman/wrobel" rfl).2.1
        (by decide)).2.1
    rw [h]
    decide⟩

/-- C4: refuted by the code — `set_priority` writes `str(priority)` into
`self.data['&priority']` before `int(priority)` is evaluated, so on the
non-integer string `"high"` the call raises `ValueError` with the persisted
record data already overwritten; only the in-memory `priority` field is left
unchanged.  Evaluated here on the fixture record (stored priority 10). -/
theorem set_priority_mutates_data_before_raise :
    (wrobel.set_priority "high").2 = true ∧
    (wrobel.set_priority "high").1.priority = 10 ∧
    wrobel.data.priorityAttr = some "10" ∧
    (wrobel.set_priority "high").1.data.priorityAttr = some "high" := by
  exact ⟨rfl, rfl, rfl, rfl⟩

/-- The fixture descriptor with the name element present but holding empty
text. -/
def emptyNameData : OverlayData :=
  { wrobelData with nameElem := some "" }

/-- C5 counterexample: a descriptor whose name entry is present but empty
constructs successfully (even in strict mode `ignore = 0`), producing a
record with `name = ""` — non-emptiness of the name is not enforced, only
presence of the entry. -/
theorem empty_name_accepted_cex :
    ∃ o w, overlayInit emptyNameData 0 = Except.ok (o, w) ∧ o.name = "" := by
  exact ⟨{ wrobel with data := emptyNameData, name := "" }, [], rfl, rfl⟩

/-- C5 amended: construction fails with the `MissingField`-style exception
when the descriptor has neither a name element nor a name attribute, and
never succeeds when it has neither a source element nor a src attribute —
in both cases regardless of the ignore/lenient setting.  (Presence of the
entry suffices: empty text is accepted, see the counterexample.) -/
theorem init_requires_name_and_source (d : OverlayData) (ignore : Nat) :
    (d.nameElem = none → d.nameAttr = none →
      overlayInit d ignore = Except.error InitErr.missingName) ∧
    (d.sourceElem = none → d.srcAttr = none →
      ∃ e, overlayInit d ignore = Except.error e ∧
        (e = InitErr.missingName ∨ ∃ n, e = InitErr.missingSource n)) := by
  constructor
  · intro h1 h2
    simp [overlayInit, h1, h2, Bind.bind, Except.bind]
  · intro h1 h2
    rcases hne : d.nameElem with _ | t
    · rcases hna : d.nameAttr with _ | a
      · exact ⟨InitErr.missingName,
          by simp [overlayInit, hne, hna, Bind.bind, Except.bind], Or.inl rfl⟩
      · exact ⟨InitErr.missingSource a,
          by simp [overlayInit, hne, hna, h1, h2, Bind.bind, Except.bind],
          Or.inr ⟨a, rfl⟩⟩
    · exact ⟨InitErr.missingSource (pyStrip t),
        by simp [overlayInit, hne, h1, h2, Bind.bind, Except.bind],
        Or.inr ⟨pyStrip t, rfl⟩⟩

/-- C5 witness: the fully empty descriptor is missing both name and source;
both conjuncts of the amended theorem apply to it. -/
theorem init_requires_name_and_source_witness :
    overlayInit
      { nameElem := none, nameAttr := none, sourceElem := none,
        srcAttr := none, ownerEmailElem := none, ownerNameElem := none,
        contactAttr := none, descriptionElem := none, statusAttr := none,
        priorityAttr := none, homepageElem := none, linkElem := none } 0 =
      Except.error InitErr.missingName ∧
    ∃ e, overlayInit
      { nameElem := none, nameAttr := none, sourceElem := none,
        srcAttr := none, ownerEmailElem := none, ownerNameElem := none,
        contactAttr := none, descriptionElem := none, statusAttr := none,
        priorityAttr := none, homepageElem := none, linkElem := none } 0 =
      Except.error e ∧
      (e = InitErr.missingName ∨ ∃ n, e = InitErr.missingSource n) :=
  ⟨(init_requires_name_and_source _ 0).1 rfl rfl,
   (init_requires_name_and_source _ 0).2 rfl rfl⟩

/-- Fixture for the lenient-mode theorem: valid name and source, but no
owner (and no contact attribute) and no description. -/
def noOwnerNoDescData : OverlayData :=
  { wrobelData with ownerEmailElem := none, contactAttr := none,
                    descriptionElem := none, priorityAttr := none }

/-- Fixture for the lenient-mode theorem: owner email present, description
missing. -/
def noDescData : OverlayData :=
  { wrobelData with descriptionElem := none, priorityAttr := none }

/-- C6: a descriptor `d` missing `owner.email` (no owner email element and
no contact attribute) and missing `description`, and a descriptor `e`
missing only `description`, are rejected in strict mode (`ignore = 0`) with
the corresponding missing-field exception; with `ignore = 1` construction
succeeds, the missing fields default to `""`, and exactly the corresponding
warnings are emitted; with any `ignore ≥ 2` construction succeeds the same
way with no warning at all — the behavior is selected by the caller's
`ignore` argument. -/
theorem init_lenient_modes (d e : OverlayData) (nt st nt2 st2 oe : String)
    (h1 : d.nameElem = some nt) (h2 : d.sourceElem = some st)
    (h3 : d.ownerEmailElem = none) (h4 : d.contactAttr = none)
    (h5 : d.descriptionElem = none) (h6 : d.priorityAttr = none)
    (g1 : e.nameElem = some nt2) (g2 : e.sourceElem = some st2)
    (g3 : e.ownerEmailElem = some oe) (g5 : e.descriptionElem = none)
    (g6 : e.priorityAttr = none) :
    overlayInit d 0 = Except.error (InitErr.missingOwnerEmail (pyStrip nt)) ∧
    overlayInit e 0 = Except.error (InitErr.missingDescription (pyStrip nt2)) ∧
    (∃ o, overlayInit d 1 = Except.ok (o,
        [WarnMsg.missingOwnerEmail (pyStrip nt),
         WarnMsg.missingDescription (pyStrip nt)]) ∧
      o.owner_email = "" ∧ o.description = "") ∧
    (∀ i, 2 ≤ i → ∃ o, overlayInit d i = Except.ok (o, []) ∧
      o.owner_email = "" ∧ o.description = "") ∧
    (∃ o, overlayInit e 1 = Except.ok (o,
        [WarnMsg.missingDescription (pyStrip nt2)]) ∧
      o.description = "") ∧
    (∀ i, 2 ≤ i → ∃ o, overlayInit e i = Except.ok (o, []) ∧
      o.description = "") := by
  refine ⟨?_, ?_, ?_, ?_, ?_, ?_⟩
  · simp [overlayInit, h1, h2, h3, h4, Bind.bind, Except.bind]
  · simp [overlayInit, g1, g2, g3, g5, Bind.bind, Except.bind]
  · refine ⟨{ data := d, name := pyStrip nt, src := pyStrip st,
              owner_email := "", owner_name := none, description := "",
              status := d.statusAttr.getD "", priority := 50,
              otype := "None" },
      ?_, rfl, rfl⟩
    simp [overlayInit, h1, h2, h3, h4, h5, h6, Bind.bind, Except.bind,
      Option.getD]
    cases d.statusAttr <;> rfl
  · intro i hi
    have hi0 : ¬(i = 0) := by omega
    have hi1 : ¬(i = 1) := by omega
    refine ⟨{ data := d, name := pyStrip nt, src := pyStrip st,
              owner_email := "", owner_name := none, description := "",
              status := d.statusAttr.getD "", priority := 50,
              otype := "None" },
      ?_, rfl, rfl⟩
    simp [overlayInit, h1, h2, h3, h4, h5, h6, hi0, hi1, Bind.bind,
      Except.bind, Option.getD]
    cases d.statusAttr <;> rfl
  · refine ⟨{ data := e, name := pyStrip nt2, src := pyStrip st2,
              owner_email := pyStrip oe,
              owner_name := e.ownerNameElem.map pyStrip,
              description := "", status := e.statusAttr.getD "",
              priority := 50, otype := "None" }, ?_, rfl⟩
    simp [overlayInit, g1, g2, g3, g5, g6, Bind.bind, Except.bind,
      Option.getD]
    cases e.statusAttr <;> rfl
  · intro i hi
    have hi0 : ¬(i = 0) := by omega
    have hi1 : ¬(i = 1) := by omega
    refine ⟨{ data := e, name := pyStrip nt2, src := pyStrip st2,
              owner_email := pyStrip oe,
              owner_name := e.ownerNameElem.map pyStrip,
              description := "", status := e.statusAttr.getD "",
              priority := 50, otype := "None" }, ?_, rfl⟩
    simp [overlayInit, g1, g2, g3, g5, g6, hi0, hi1, Bind.bind, Except.bind,
      Option.getD]
    cases e.statusAttr <;> rfl

/-- C6 witness: the two fixtures instantiating the lenient-mode theorem. -/
theorem init_lenient_modes_witness :
    overlayInit noOwnerNoDescData 0 =
      Except.error (InitErr.missingOwnerEmail "wrobel") ∧
    overlayInit noDescData 0 =
      Except.error (InitErr.missingDescription "wrobel") :=
  ⟨(init_lenient_modes noOwnerNoDescData noDescData "wrobel"
      "https://overlays.gentoo.org/svn/dev/wrobel" "wrobel"
      "https://overlays.gentoo.org/svn/dev/wrobel" "nobody@gentoo.org"
      rfl rfl rfl rfl rfl rfl rfl rfl rfl rfl rfl).1,
   (init_lenient_modes noOwnerNoDescData noDescData "wrobel"
      "https://overlays.gentoo.org/svn/dev/wrobel" "wrobel"
      "https://overlays.gentoo.org/svn/dev/wrobel" "nobody@gentoo.org"
      rfl rfl rfl rfl rfl rfl rfl rfl rfl rfl rfl).2.1⟩

/-- Rendering width of `pad`: it always renders exactly `n` columns once `n ≥ 3`: padding fills up
to `n`, and truncation keeps `n - 3` characters plus the three-character
ellipsis marker. -/
theorem pad_length (s : String) (n : Nat) (h : 3 ≤ n) :
    (pad s n).length = n := by
  unfold pad
  split
  · rename_i hle
    simp [String.length_append, String.length_mk]
    omega
  · rename_i hgt
    push_neg at hgt
    have h3 : String.length "..." = 3 := rfl
    simp [String.length_append, String.length_mk, List.length_take, h3]
    have : s.length = s.data.length := rfl
    omega

/-- The source text `short_list` renders: abbreviated via
`replace("overlays.gentoo.org", "o.g.o")` exactly when longer than the
budget `width - 43`. -/
def srcRendered (o : Overlay) (w : Nat) : String :=
  if decide (o.src.length > w - 43)
  then pyReplace o.src "overlays.gentoo.org" "o.g.o" else o.src

/-- Unfolding of `short_list` into its three segments. -/
theorem short_list_eq (o : Overlay) (w : Nat) :
    o.short_list w = pad o.name 25 ++ (" [" ++ pad o.otype 10 ++ "]") ++
      (" (" ++ pad (srcRendered o w) (w - 43) ++ ")") := rfl

/-- C7: for any width `w ≥ 46`, the one-line summary renders the name
padded/truncated to columns 1–25, the bracketed type padded to 10 in
columns 26–38, and the parenthesised source — host-abbreviated exactly when
it exceeds its budget `w - 43` — in the rest, for a total of `w - 2`
columns; on the doctest record (`wrobel`, type `None`, source
`https://overlays.gentoo.org/svn/dev/wrobel`) at width 80 the abbreviation
`o.g.o` is applied and the line fits within 80 columns (it is 78 wide). -/
theorem short_list_layout (o : Overlay) (w : Nat) (h : 46 ≤ w) :
    (o.short_list w).length = w - 2 ∧
    (o.short_list w).data.take 25 = (pad o.name 25).data ∧
    ((o.short_list w).data.drop 25).take 13 =
      (" [" ++ pad o.otype 10 ++ "]").data ∧
    (o.short_list w).data.drop 38 =
      (" (" ++ pad (srcRendered o w) (w - 43) ++ ")").data ∧
    wrobel.short_list 80 =
      "wrobel                    [None      ] (https://o.g.o/svn/dev/wrobel         )" ∧
    (wrobel.short_list 80).length = 78 ∧ 78 ≤ 80 := by
  have h25 : (pad o.name 25).length = 25 := pad_length _ _ (by omega)
  have h10 : (pad o.otype 10).length = 10 := pad_length _ _ (by omega)
  have hsrc : (pad (srcRendered o w) (w - 43)).length = w - 43 :=
    pad_length _ _ (by omega)
  have hdata : ∀ t : String, t.data.length = t.length := fun _ => rfl
  have l1 : String.length " [" = 2 := rfl
  have l2 : String.length "]" = 1 := rfl
  have l3 : String.length " (" = 2 := rfl
  have l4 : String.length ")" = 1 := rfl
  refine ⟨?_, ?_, ?_, ?_, rfl, rfl, by omega⟩
  · rw [short_list_eq]
    simp only [String.length_append, h25, h10, hsrc, l1, l2, l3, l4]
    omega
  · rw [short_list_eq]
    simp only [String.data_append, List.append_assoc]
    exact List.take_left' (by rw [hdata, h25])
  · rw [short_list_eq]
    simp only [String.data_append, List.append_assoc]
    rw [List.drop_left' (by rw [hdata, h25])]
    rw [← List.append_assoc, ← List.append_assoc]
    refine List.take_left' ?_
    simp only [String.length_mk, List.length_append, List.length_cons,
      List.length_nil]
    rw [show (pad o.otype 10).data.length = (pad o.otype 10).length from rfl,
      h10]
  · rw [short_list_eq]
    simp only [String.data_append, List.append_assoc]
    rw [← List.append_assoc, ← List.append_assoc, ← List.append_assoc]
    refine List.drop_left' ?_
    simp only [String.length_mk, List.length_append, List.length_cons,
      List.length_nil]
    rw [show (pad o.otype 10).data.length = (pad o.otype 10).length from rfl,
      h10,
      show (pad o.name 25).data.length = (pad o.name 25).length from rfl,
      h25]

/-- C7 witness: the layout theorem instantiated at the fixture overlay and
width 80. -/
theorem short_list_layout_witness :
    (wrobel.short_list 80).length = 80 - 2 ∧
    wrobel.short_list 80 =
      "wrobel                    [None      ] (https://o.g.o/svn/dev/wrobel         )" :=
  ⟨(short_list_layout wrobel 80 (by decide)).1,
   (short_list_layout wrobel 80 (by decide)).2.2.2.2.1⟩

/-- Concatenation of a list of strings. -/
def concatList : List String → String
  | [] => ""
  | a :: r => a ++ concatList r

/-- String membership as a contiguous segment. -/
def strContains (s mid : String) : Prop :=
  ∃ A B : String, s = A ++ mid ++ B

/-- String append is associative. -/
theorem strAppendAssoc (a b c : String) : a ++ b ++ c = a ++ (b ++ c) := by
  apply String.ext
  simp [String.data_append, List.append_assoc]

/-- Characterization of `pyJoin` in terms of plain concatenation: the separator is put in front
of every element but the first. -/
theorem pyJoin_concat (sep a : String) (t : List String) :
    pyJoin sep (a :: t) = a ++ concatList (t.map (fun l => sep ++ l)) := by
  induction t generalizing a with
  | nil =>
    apply String.ext
    simp [pyJoin, concatList]
  | cons x t ih =>
    have hu : pyJoin sep (a :: x :: t) = a ++ sep ++ pyJoin sep (x :: t) := rfl
    rw [hu, ih]
    apply String.ext
    simp [concatList, String.data_append, List.append_assoc]

/-- The `'\n  '.join(('\n' + text).split('\n'))` idiom indents every line of
`text` by two spaces, each preceded by a newline. -/
theorem joinIndent_concat (t : String) :
    joinIndent t = concatList ((pyLines t).map (fun l => "\n  " ++ l)) := by
  unfold joinIndent
  have hd : ("\n" ++ t).data = '\n' :: t.data := by
    simp [String.data_append]
  have hlines : pyLines ("\n" ++ t) = "" :: pyLines t := by
    unfold pyLines
    rw [hd]
    simp [splitNL]
  rw [hlines, pyJoin_concat]
  apply String.ext
  simp [String.data_append]

/-- C8: `__str__` (the detail rendering) is a pure function of the record —
hence deterministic — whose output starts with the name underlined by
exactly `name.length` tilde characters and contains, as contiguous
segments: the `Source` line with the record's `src`; the `Contact` line
(owner name plus bracketed email when the owner name is present, the email
alone otherwise); the `Type ; Priority` line; and the `Description:`
section, in which the description is whitespace-normalized (space runs
collapsed, newline-space collapsed to newline) and every one of its lines
is indented by two spaces after its newline. -/
theorem str_detail_structure (o : Overlay) :
    (∃ rest, o.str =
      o.name ++ "\n" ++ String.mk (List.replicate o.name.length '~') ++ rest) ∧
    strContains o.str ("\nSource  : " ++ o.src) ∧
    strContains o.str ("\nContact : " ++
      (match o.owner_name with
       | some n => n ++ " <" ++ o.owner_email ++ ">"
       | none => o.owner_email)) ∧
    strContains o.str ("\nType    : " ++ o.otype ++ "; Priority: " ++
      toString o.priority ++ "\n") ∧
    strContains o.str ("\nDescription:" ++
      concatList ((pyLines (normTxt o.description)).map
        (fun l => "\n  " ++ l)) ++ "\n") := by
  refine ⟨?_, ?_, ?_, ?_, ?_⟩
  · refine ⟨sourceLine o ++ contactLine o ++ typeLine o ++ descSection o ++
      linkSection o, ?_⟩
    apply String.ext
    simp [Overlay.str, titleLine, String.data_append, List.append_assoc]
  · refine ⟨titleLine o, contactLine o ++ typeLine o ++ descSection o ++
      linkSection o, ?_⟩
    apply String.ext
    simp [Overlay.str, sourceLine, String.data_append, List.append_assoc]
  · refine ⟨titleLine o ++ sourceLine o, typeLine o ++ descSection o ++
      linkSection o, ?_⟩
    cases h : o.owner_name with
    | some n =>
      apply String.ext
      simp [Overlay.str, contactLine, h, String.data_append,
        List.append_assoc]
    | none =>
      apply String.ext
      simp [Overlay.str, contactLine, h, String.data_append,
        List.append_assoc]
  · refine ⟨titleLine o ++ sourceLine o ++ contactLine o,
      descSection o ++ linkSection o, ?_⟩
    apply String.ext
    simp [Overlay.str, typeLine, String.data_append, List.append_assoc]
  · refine ⟨titleLine o ++ sourceLine o ++ contactLine o ++ typeLine o,
      linkSection o, ?_⟩
    rw [← joinIndent_concat]
    apply String.ext
    simp [Overlay.str, descSection, String.data_append, List.append_assoc]
